import Mathlib

/-!
Verification of the sunbeam core step/coordination layer.

This file gives a shallow embedding of the step implementations in
`sunbeam/core/steps.py`, `sunbeam/core/k8s.py` and
`sunbeam/steps/maintenance.py`, and proves or refutes the behavioural
claims made by the specification about them.

External collaborators (the Juju client, the Terraform helper, the
Kubernetes client and the Watcher client) are modelled as oracle
environments: a record field per fallible collaborator call records
whether the call succeeds and what it returns.  Python exceptions that a
method can let escape are modelled with `Except`; exceptions that the
method catches are modelled by `Option`-valued oracle fields consumed at
the catching call site.
-/

set_option maxRecDepth 4000

/-! ## Result model

`Result`/`ResultType` come from `sunbeam.core.common`, which is not part
of the sources under review; the shape below is modelled from the spec
(section 3, "Outcome"): a tri-state kind with an optional message.
-/

/-- Modelled from the spec: the tri-state outcome kind of
`sunbeam.core.common.ResultType` (COMPLETED, FAILED, SKIPPED). -/
inductive ResultType where
  | completed
  | failed
  | skipped
deriving DecidableEq, Repr

/-- Modelled from the spec: `sunbeam.core.common.Result`, an outcome kind
together with an optional human-readable message. -/
structure StepResult where
  resultType : ResultType
  message : Option String
deriving DecidableEq, Repr

/-- `Result(ResultType.COMPLETED)`. -/
def completedR : StepResult := ⟨.completed, none⟩

/-- `Result(ResultType.FAILED, msg)`. -/
def failedR (msg : String) : StepResult := ⟨.failed, some msg⟩

/-- `Result(ResultType.SKIPPED)`. -/
def skippedR : StepResult := ⟨.skipped, none⟩

/-- `Result(ResultType.SKIPPED, msg)`. -/
def skippedMsgR (msg : String) : StepResult := ⟨.skipped, some msg⟩

/-- Python exceptions that can escape a step method uncaught. -/
inductive StepExc where
  | modelNotFound
  | keyError
deriving DecidableEq, Repr

instance instDecidableEqExcept {ε α : Type} [DecidableEq ε] [DecidableEq α] :
    DecidableEq (Except ε α) := fun x y =>
  match x, y with
  | .ok a, .ok b =>
    if h : a = b then .isTrue (congrArg Except.ok h)
    else .isFalse (fun hh => h (Except.ok.inj hh))
  | .error a, .error b =>
    if h : a = b then .isTrue (congrArg Except.error h)
    else .isFalse (fun hh => h (Except.error.inj hh))
  | .ok _, .error _ => .isFalse (fun hh => Except.noConfusion hh)
  | .error _, .ok _ => .isFalse (fun hh => Except.noConfusion hh)

/-! ## Binary64 arithmetic for the teardown time budgets

`DestroyMachineApplicationStep.run` computes its two wait budgets as
`int(timeout * 0.8)` and `int(timeout * (1 - 0.8))` where `0.8` is a
Python float literal, i.e. an IEEE-754 binary64 value.  All quantities
involved are nonnegative, so we model binary64 values as exact
nonnegative fractions (numerator/denominator pairs of naturals, the
denominator always positive by construction) together with
round-to-nearest-even into 53 significand bits. -/

/-- An unreduced nonnegative fraction `n / d`; every constructor used in
this development keeps `d` positive. -/
structure PFrac where
  n : ℕ
  d : ℕ
deriving DecidableEq, Repr

/-- Fraction comparison `a ≤ b` by cross multiplication. -/
def PFrac.le (a b : PFrac) : Bool := a.n * b.d ≤ b.n * a.d

/-- Fraction comparison `a < b` by cross multiplication. -/
def PFrac.lt (a b : PFrac) : Bool := a.n * b.d < b.n * a.d

/-- Truncated fraction subtraction (exact whenever `b ≤ a`). -/
def PFrac.sub (a b : PFrac) : PFrac := ⟨a.n * b.d - b.n * a.d, a.d * b.d⟩

/-- Multiplication of a fraction by a natural number. -/
def PFrac.natMul (k : ℕ) (a : PFrac) : PFrac := ⟨k * a.n, a.d⟩

/-- `⌊a⌋` of a nonnegative fraction. -/
def PFrac.floor (a : PFrac) : ℕ := a.n / a.d

/-- Scale a fraction by `2^i` for an integer exponent `i`. -/
def PFrac.mulPow2 (a : PFrac) (i : ℤ) : PFrac :=
  if 0 ≤ i then ⟨a.n * 2 ^ i.toNat, a.d⟩ else ⟨a.n, a.d * 2 ^ (-i).toNat⟩

/-- The fraction `2^i` for an integer exponent `i`. -/
def pfracPow2 (i : ℤ) : PFrac :=
  if 0 ≤ i then ⟨2 ^ i.toNat, 1⟩ else ⟨1, 2 ^ (-i).toNat⟩

/-- Round a nonnegative fraction to the nearest natural, ties to even. -/
def PFrac.rne (a : PFrac) : ℕ :=
  let f := a.floor
  let rem := a.n - f * a.d
  if 2 * rem < a.d then f
  else if a.d < 2 * rem then f + 1
  else if f % 2 = 0 then f else f + 1

/-- The binade exponent of a positive fraction: the `e` with
`2^e ≤ a < 2^(e+1)`, searched in the range `[-80, 79]` (ample for every
value arising from the timeout computations). -/
def PFrac.binade (a : PFrac) : ℤ :=
  match (List.range 160).find?
      (fun i => (pfracPow2 ((i : ℤ) - 80)).le a && a.lt (pfracPow2 ((i : ℤ) - 79))) with
  | some i => (i : ℤ) - 80
  | none => 0

/-- Round a nonnegative fraction to the nearest IEEE-754 binary64 value
(round-to-nearest, ties to even), returned as an exact fraction. -/
def fl (a : PFrac) : PFrac :=
  if a.n = 0 then ⟨0, 1⟩
  else
    let e := a.binade
    PFrac.mulPow2 ⟨(a.mulPow2 (52 - e)).rne, 1⟩ (e - 52)

/-- The Python float literal `0.8` (`timeout_factor` in
`DestroyMachineApplicationStep.run`): the binary64 value nearest 8/10. -/
def timeout_factor : PFrac := fl ⟨8, 10⟩

/-- The binary64 value of the Python expression `1 - timeout_factor`. -/
def one_minus_timeout_factor : PFrac := fl (PFrac.sub ⟨1, 1⟩ timeout_factor)

/-- `int(timeout * timeout_factor)`: the graceful-phase wait budget, the
multiplication performed in binary64 (`timeout` itself converts to
binary64 exactly for every realistic timeout) and `int()` truncating the
nonnegative result toward zero, i.e. flooring it. -/
def graceful_budget (timeout : ℕ) : ℕ :=
  (fl (PFrac.natMul timeout timeout_factor)).floor

/-- `int(timeout * (1 - timeout_factor))`: the forceful-phase wait
budget, subtraction and multiplication performed in binary64. -/
def forceful_budget (timeout : ℕ) : ℕ :=
  (fl (PFrac.natMul timeout one_minus_timeout_factor)).floor

example : timeout_factor = ⟨7205759403792794, 2 ^ 53⟩ := by decide
example : graceful_budget 600 = 480 := by decide
example : forceful_budget 600 = 119 := by decide

/-! ## DestroyMachineApplicationStep (core/steps.py lines 419-536)

The escalating-teardown coordinator.  `run` interacts with the Terraform
helper and the Juju client; the `DestroyRunEnv` oracle fixes the outcome
of each collaborator call.  `run` additionally returns the list of
observable collaborator effects, in order, so that claims about which
calls are issued and with which budgets can be stated. -/

/-- Observable collaborator effects of `DestroyMachineApplicationStep.run`. -/
inductive DestroyEvent where
  | tfDestroy
  | waitGone (budget : ℕ)
  | forceDestroy (app : String)
deriving DecidableEq, Repr

/-- Oracle for the collaborator calls made by
`DestroyMachineApplicationStep.run`. -/
structure DestroyRunEnv where
  hasTfResources : Bool
  tfDestroyFails : Bool
  tfErrMsg : String
  firstWaitTimesOut : Bool
  modelPresent : Bool
  presentApps : List String
  forceDestroyFails : String → Bool
  secondWaitTimesOut : Bool

/-- A Juju orchestrator error raised by `app.destroy`. -/
inductive JujuError where
  | jujuError
deriving DecidableEq, Repr

/-- The `app.destroy(destroy_storage=True, force=True)` call: raises
`JujuError` exactly when the oracle says this application is stuck. -/
def app_destroy (fails : String → Bool) (app : String) : Except JujuError Unit :=
  if fails app then .error .jujuError else .ok ()

/-- The fallback loop of `DestroyMachineApplicationStep.run` (lines
520-525): a force-destroy call per still-present application, a
`JujuError` being caught, logged and followed by `continue`. -/
def force_destroy_loop (fails : String → Bool) : List String → List DestroyEvent
  | [] => []
  | app :: rest =>
    match app_destroy fails app with
    | .error _ => .forceDestroy app :: force_destroy_loop fails rest
    | .ok _ => .forceDestroy app :: force_destroy_loop fails rest

namespace DestroyMachineApplicationStep

/-- `DestroyMachineApplicationStep.run` (lines 494-536).  `timeout` is
`self.get_application_timeout()` (600 for this class).  Returns the
result — `Except` capturing the `ModelNotFoundException` that
`get_model` can raise uncaught inside the fallback — paired with the
ordered list of collaborator effects. -/
def run (timeout : ℕ) (env : DestroyRunEnv) :
    Except StepExc StepResult × List DestroyEvent :=
  let tfTrace : List DestroyEvent := if env.hasTfResources then [.tfDestroy] else []
  if env.hasTfResources && env.tfDestroyFails then
    (.ok (failedR env.tfErrMsg), tfTrace)
  else
    let t1 := tfTrace ++ [.waitGone (graceful_budget timeout)]
    if !env.firstWaitTimesOut then (.ok completedR, t1)
    else if !env.modelPresent then (.error .modelNotFound, t1)
    else
      let t2 := t1 ++ force_destroy_loop env.forceDestroyFails env.presentApps
      let t3 := t2 ++ [.waitGone (forceful_budget timeout)]
      if env.secondWaitTimesOut then
        (.ok (failedR "Timed out destroying applications, try manually"), t3)
      else (.ok completedR, t3)

/-- Oracle for the collaborator calls made by
`DestroyMachineApplicationStep.is_skip`: `pull_state` either raises
`TerraformException` (`none`) or returns the resource list; `get_model`
either raises `ModelNotFoundException` (caught) or succeeds, after which
each managed application is looked up. -/
structure DestroySkipEnv where
  tfPullResult : Option (List String)
  modelPresent : Bool
  appPresent : String → Bool

/-- `DestroyMachineApplicationStep.is_skip` (lines 469-492).  Returns
the result and the value of `self._has_tf_resources` afterwards (the
field is initialised to `False` in `__init__` and left unchanged when
`pull_state` raises). -/
def is_skip (applications : List String) (env : DestroySkipEnv) :
    StepResult × Bool :=
  let hasTf : Bool :=
    match env.tfPullResult with
    | none => false
    | some resources => !resources.isEmpty
  let hasJuju : Bool :=
    env.modelPresent && !(applications.filter env.appPresent).isEmpty
  if !hasTf && !hasJuju then (skippedR, hasTf) else (completedR, hasTf)

/-- Modelled from the spec: the plan runner (`sunbeam.core.common`, not
in src/) evaluates `is_skip` first and invokes `run` only when `is_skip`
returns COMPLETED; SKIPPED and FAILED outcomes are recorded without
running the step.  This composition executes the destroy step under that
contract, threading `_has_tf_resources` from `is_skip` into `run`. -/
def step_exec (timeout : ℕ) (applications : List String)
    (senv : DestroySkipEnv) (renv : DestroyRunEnv) :
    Except StepExc StepResult × List DestroyEvent :=
  let skip := is_skip applications senv
  match skip.1.resultType with
  | .completed => run timeout { renv with hasTfResources := skip.2 }
  | _ => (.ok skip.1, [])

end DestroyMachineApplicationStep

/-! ## AddMachineUnitsStep (core/steps.py lines 174-313)

`is_skip` resolves the requested node names to machine ids against the
cluster database, mutating `self.to_deploy`; `run` adds the units and
persists the machine ids into the Terraform plan variables. -/

/-- A node record from `client.cluster.list_nodes()`: the `machineid`
key may be absent (`node.get("machineid", -1)` in `AddMachineUnitsStep`,
`node["machineid"]` in `RemoveMachineUnitsStep`). -/
structure ClusterNode where
  name : String
  machineid : Option ℤ
deriving DecidableEq, Repr

/-- Oracle for the collaborator calls made by
`AddMachineUnitsStep.is_skip`: the cluster node list, whether
`get_model` succeeds, and the machine ids of the units of the
application, `none` meaning `ApplicationNotFoundException`. -/
structure AddSkipEnv where
  nodes : List ClusterNode
  modelPresent : Bool
  deployedMachineIds : Option (List String)

namespace AddMachineUnitsStep

/-- `AddMachineUnitsStep.is_skip` (lines 203-253) resolves the
requested node names against the cluster database.  `to_deploy` is the
value of `self.to_deploy` before the call (empty right after
construction); the returned pair is the outcome together with the value
of `self.to_deploy` after the call.  The `get_model` call at line 237 is
outside any try block, so `ModelNotFoundException` escapes, modelled by
`Except.error`.  The node-name filter of line 213: -/
def filtered_nodes (names : List String) (nodes : List ClusterNode) : List ClusterNode :=
  nodes.filter (fun node => names.contains node.name)

/-- The machine ids (as strings) that the resolution loop of lines
224-229 adds to `self.to_deploy`: one per filtered node whose
`machineid` is present (i.e. `node.get("machineid", -1)` is not -1). -/
def resolved_machine_ids (names : List String) (nodes : List ClusterNode) : List String :=
  (filtered_nodes names nodes).filterMap (fun node =>
    let mid := node.machineid.getD (-1)
    if mid = -1 then none else some (toString mid))

/-- The filtered nodes the loop collects into `nodes_without_machine_id`. -/
def nodes_without_machine_id (names : List String) (nodes : List ClusterNode) :
    List ClusterNode :=
  (filtered_nodes names nodes).filter (fun node => node.machineid.getD (-1) == -1)

/-- `AddMachineUnitsStep.is_skip` body; see the namespace doc comments. -/
def is_skip (names : List String) (env : AddSkipEnv) (to_deploy : Finset String) :
    Except StepExc StepResult × Finset String :=
  if names.isEmpty then (.ok skippedR, to_deploy)
  else if (filtered_nodes names env.nodes).length ≠ names.length then
    (.ok (failedR "Nodes do not exist in cluster database"), to_deploy)
  else
    let toDeploy1 := to_deploy ∪ (resolved_machine_ids names env.nodes).toFinset
    if !(nodes_without_machine_id names env.nodes).isEmpty then
      (.ok (failedR "Nodes do not have machine id, are they deployed?"), toDeploy1)
    else if !env.modelPresent then (.error .modelNotFound, toDeploy1)
    else
      match env.deployedMachineIds with
      | none => (.ok (failedR "Application has not been deployed"), toDeploy1)
      | some deployed =>
        let toDeploy2 := toDeploy1 \ deployed.toFinset
        if toDeploy2 = ∅ then (.ok (skippedMsgR "No new units to deploy"), toDeploy2)
        else (.ok completedR, toDeploy2)

/-- `AddMachineUnitsStep.add_machine_id_to_tfvar` (lines 255-270).
`stored` is the `machine_ids` list currently persisted in the cluster
database (`none` when the config item is missing, which the method
treats as an empty dict).  Returns the `machine_ids` list persisted
after the call: unchanged when the deploy-set is nonempty and already a
subset, otherwise the sorted union. -/
def add_machine_id_to_tfvar (to_deploy : Finset String) (stored : Option (List String)) :
    List String :=
  let machine_ids := (stored.getD []).toFinset
  if to_deploy.Nonempty ∧ to_deploy ⊆ machine_ids then stored.getD []
  else (machine_ids ∪ to_deploy).sort (· ≤ ·)

/-- Oracle for the collaborator calls made by `AddMachineUnitsStep.run`:
whether `get_model` succeeds, whether `get_application` finds the
application, and the error message of `wait_until_desired_status` when
it raises `JujuWaitException` or `TimeoutException`. -/
structure RunEnv where
  modelPresent : Bool
  appFound : Bool
  waitError : Option String

/-- `AddMachineUnitsStep.run` (lines 276-313).  The try block catches
only `ApplicationNotFoundException`; `get_model` raising
`ModelNotFoundException` escapes, modelled by `Except.error`.  The
`add_unit` / `add_machine_id_to_tfvar` side effects sit between the
application lookup and the wait and raise none of the caught
exceptions. -/
def run (env : RunEnv) : Except StepExc StepResult :=
  if !env.modelPresent then .error .modelNotFound
  else if !env.appFound then .ok (failedR "Application myapp not found in model")
  else
    match env.waitError with
    | some msg => .ok (failedR msg)
    | none => .ok completedR

end AddMachineUnitsStep

/-! ## DeployMachineApplicationStep (core/steps.py lines 58-171) -/

/-- Observable collaborator effects of `DeployMachineApplicationStep.run`:
the Terraform apply with the `machine_ids` override it receives, and the
readiness wait. -/
inductive DeployEvent where
  | tfApply (machine_ids : List String)
  | waitReady
deriving DecidableEq, Repr

/-- Oracle for the collaborator calls made by
`DeployMachineApplicationStep.run`: whether `get_model` succeeds, the
machine ids of existing units (`none` meaning
`ApplicationNotFoundException`, which is caught and logged), the
`TerraformException` message of `update_tfvars_and_apply_tf` if it
raises, and whether `wait_application_ready` times out. -/
structure DeployRunEnv where
  modelPresent : Bool
  unitMachineIds : Option (List String)
  tfApplyError : Option String
  waitReadyTimesOut : Bool

namespace DeployMachineApplicationStep

/-- `DeployMachineApplicationStep.run` (lines 125-171).  The `get_model`
call at line 128 is outside any try block, so `ModelNotFoundException`
escapes, modelled by `Except.error`. -/
def run (env : DeployRunEnv) : Except StepExc StepResult × List DeployEvent :=
  if !env.modelPresent then (.error .modelNotFound, [])
  else
    let machine_ids := env.unitMachineIds.getD []
    match env.tfApplyError with
    | some e => (.ok (failedR e), [.tfApply machine_ids])
    | none =>
      if env.waitReadyTimesOut then
        (.ok (failedR "Timed out while waiting for application to be ready"),
          [.tfApply machine_ids, .waitReady])
      else (.ok completedR, [.tfApply machine_ids, .waitReady])

end DeployMachineApplicationStep

/-! ## RemoveMachineUnitsStep (core/steps.py lines 316-416) -/

/-- A unit of a Juju application: its name and the id of the machine it
is deployed on. -/
structure JujuUnit where
  name : String
  machineId : String
deriving DecidableEq, Repr

/-- Oracle for the collaborator calls made by
`RemoveMachineUnitsStep.is_skip`: the cluster node list, whether
`get_model` succeeds, and the application units (`none` meaning
`ApplicationNotFoundException`). -/
structure RemoveSkipEnv where
  nodes : List ClusterNode
  modelPresent : Bool
  appUnits : Option (List JujuUnit)

namespace RemoveMachineUnitsStep

/-- `RemoveMachineUnitsStep.is_skip` (lines 349-389).  `units_to_remove`
is the value of `self.units_to_remove` before the call; the returned
pair is the outcome together with its value after the call.  Nodes
missing from the cluster database are only logged (no early return).
The `get_model` call at line 367 is outside any try block, so
`ModelNotFoundException` escapes; the set construction at line 378 uses
`node["machineid"]`, which raises `KeyError` when a filtered node has
no machine id, before any unit is added.  The node-name filter: -/
def filtered_nodes (names : List String) (nodes : List ClusterNode) : List ClusterNode :=
  nodes.filter (fun node => names.contains node.name)

/-- `to_remove_node_ids` (line 378): the machine ids of the filtered
nodes, as strings (assuming every filtered node has one — the raising
case is handled in `is_skip`). -/
def to_remove_node_ids (names : List String) (nodes : List ClusterNode) : List String :=
  (filtered_nodes names nodes).filterMap (fun node => node.machineid.map toString)

/-- The unit names the loop of lines 380-383 adds to
`self.units_to_remove`: units deployed on one of the machines to
remove. -/
def units_to_remove_names (names : List String) (nodes : List ClusterNode)
    (appUnits : List JujuUnit) : List String :=
  (appUnits.filter
    (fun u => decide (u.machineId ∈ (to_remove_node_ids names nodes).toFinset))).map
    JujuUnit.name

/-- `RemoveMachineUnitsStep.is_skip` body; see the namespace doc
comments. -/
def is_skip (names : List String) (env : RemoveSkipEnv) (units_to_remove : Finset String) :
    Except StepExc StepResult × Finset String :=
  if names.isEmpty then (.ok skippedR, units_to_remove)
  else if !env.modelPresent then (.error .modelNotFound, units_to_remove)
  else
    match env.appUnits with
    | none => (.ok (skippedMsgR "Application has not been deployed yet"), units_to_remove)
    | some appUnits =>
      if (filtered_nodes names env.nodes).any (fun node => node.machineid.isNone) then
        (.error .keyError, units_to_remove)
      else
        let unitsAfter := units_to_remove ∪
          (units_to_remove_names names env.nodes appUnits).toFinset
        if unitsAfter = ∅ then (.ok skippedR, unitsAfter)
        else (.ok completedR, unitsAfter)

end RemoveMachineUnitsStep

/-! ## Node drain helpers (core/k8s.py lines 152-243)

Pods and PVCs are modelled with exactly the attributes the drain helpers
touch.  Python attribute/indexing faults (`AttributeError` on a `None`
metadata, `TypeError` on indexing a `None` ownerReferences list,
`IndexError` on an empty one) and Kubernetes `ApiError`s are the error
cases. -/

/-- An entry of `metadata.ownerReferences`. -/
structure OwnerReference where
  kind : String
deriving DecidableEq, Repr

/-- The slice of pod metadata the drain helpers read. -/
structure PodMeta where
  name : String
  ns : String
  ownerReferences : Option (List OwnerReference)
deriving DecidableEq, Repr

/-- A pod volume: `persistentVolumeClaim.claimName` when the volume is
backed by a PVC. -/
structure PodVolume where
  persistentVolumeClaim : Option String
deriving DecidableEq, Repr

/-- The slice of a pod spec the drain helpers read. -/
structure PodSpec where
  volumes : Option (List PodVolume)
deriving DecidableEq, Repr

/-- The slice of a pod object the drain helpers read. -/
structure Pod where
  metadata : Option PodMeta
  spec : Option PodSpec
deriving DecidableEq, Repr

/-- The slice of PVC metadata `delete_pvc` reads. -/
structure PvcMeta where
  name : String
  ns : String
deriving DecidableEq, Repr

/-- A PersistentVolumeClaim object. -/
structure Pvc where
  metadata : Option PvcMeta
deriving DecidableEq, Repr

/-- Python runtime faults and Kubernetes client errors raised by the
drain helpers. -/
inductive K8sExc where
  | attrError
  | typeError
  | indexError
  | apiError (target : String)
deriving DecidableEq, Repr

/-- `is_not_daemonset` (k8s.py lines 152-153):
`pod.metadata.ownerReferences[0].kind != "DaemonSet"`.  Only the first
owner reference is inspected; a pod without metadata, with no
`ownerReferences` list, or with an empty one makes the expression raise
instead of returning a boolean. -/
def is_not_daemonset (pod : Pod) : Except K8sExc Bool :=
  match pod.metadata with
  | none => .error .attrError
  | some meta =>
    match meta.ownerReferences with
    | none => .error .typeError
    | some [] => .error .indexError
    | some (ref :: _) => .ok (ref.kind ≠ "DaemonSet")

/-- `fetch_pods_for_eviction` (k8s.py lines 176-188), given the pod list
the field-selector query returns for the node:
`list(filter(is_not_daemonset, pods))`.  The predicate is applied to the
pods in order and its first raise aborts the whole call. -/
def fetch_pods_for_eviction : List Pod → Except K8sExc (List Pod)
  | [] => .ok []
  | pod :: rest =>
    match is_not_daemonset pod with
    | .error e => .error e
    | .ok keep =>
      match fetch_pods_for_eviction rest with
      | .error e => .error e
      | .ok tail => .ok (if keep then pod :: tail else tail)

/-- `evict_pods` (k8s.py lines 191-201).  `evictionFails` records for
which pod names the `client.create` call raises.  Returns the names of
the pods evicted before any failure, paired with the error that aborted
the loop, if any: a pod without metadata is skipped with `continue`, but
there is no try/except around the client call, so its first failure
propagates and the remaining pods are not processed. -/
def evict_pods (evictionFails : String → Bool) : List Pod → List String × Option K8sExc
  | [] => ([], none)
  | pod :: rest =>
    match pod.metadata with
    | none => evict_pods evictionFails rest
    | some meta =>
      if evictionFails meta.name then ([], some (.apiError meta.name))
      else
        let tail := evict_pods evictionFails rest
        (meta.name :: tail.1, tail.2)

/-- `fetch_pvc` (k8s.py lines 204-221).  `getPvc claim ns` is the
`client.get(PersistentVolumeClaim, claim, namespace=ns)` result.  A pod
without spec or volumes is skipped; a PVC-backed volume of a pod whose
metadata is `None` makes `pod.metadata.namespace` raise. -/
def fetch_pvc (getPvc : String → String → Pvc) : List Pod → Except K8sExc (List Pvc)
  | [] => .ok []
  | pod :: rest =>
    match pod.spec with
    | none => fetch_pvc getPvc rest
    | some spec =>
      match spec.volumes with
      | none => fetch_pvc getPvc rest
      | some volumes =>
        match volumes.filterMap PodVolume.persistentVolumeClaim with
        | [] => fetch_pvc getPvc rest
        | claims =>
          match pod.metadata with
          | none => .error .attrError
          | some meta => do
            let tail ← fetch_pvc getPvc rest
            pure (claims.map (fun claim => getPvc claim meta.ns) ++ tail)

/-- `delete_pvc` (k8s.py lines 224-235).  `deleteFails` records for
which PVC names the `client.delete` call raises.  Same shape as
`evict_pods`: metadata-less PVCs are skipped, a client failure aborts
the remaining deletions. -/
def delete_pvc (deleteFails : String → Bool) : List Pvc → List String × Option K8sExc
  | [] => ([], none)
  | pvc :: rest =>
    match pvc.metadata with
    | none => delete_pvc deleteFails rest
    | some meta =>
      if deleteFails meta.name then ([], some (.apiError meta.name))
      else
        let tail := delete_pvc deleteFails rest
        (meta.name :: tail.1, tail.2)

/-- Oracle for the collaborator calls made by `drain`: the pods the
field-selector query returns for the node, the PVC lookup, and the
failure sets of the eviction and deletion calls. -/
structure DrainEnv where
  podsOnNode : List Pod
  getPvc : String → String → Pvc
  evictionFails : String → Bool
  deleteFails : String → Bool

/-- `drain` (k8s.py lines 238-243): fetch the evictable pods, resolve
their PVCs, evict, then delete; any exception raised by a phase
propagates.  Returns the evicted pod names and deleted PVC names. -/
def drain (env : DrainEnv) : Except K8sExc (List String × List String) := do
  let pods ← fetch_pods_for_eviction env.podsOnNode
  let pvcs ← fetch_pvc env.getPvc pods
  let evicted := evict_pods env.evictionFails pods
  match evicted.2 with
  | some e => .error e
  | none =>
    let deleted := delete_pvc env.deleteFails pvcs
    match deleted.2 with
    | some e => .error e
    | none => .ok (evicted.1, deleted.1)

/-- Written from the spec words, for comparison with the code: a pod is
owned by a DaemonSet when any of its owner references is of kind
DaemonSet. -/
def spec_owned_by_daemonset (pod : Pod) : Bool :=
  match pod.metadata with
  | none => false
  | some meta =>
    match meta.ownerReferences with
    | none => false
    | some refs => refs.any (fun ref => ref.kind == "DaemonSet")

/-! ## CreateWatcherAuditStepABC (steps/maintenance.py lines 83-117) -/

/-- A Watcher audit (external entity, referenced by id). -/
structure Audit where
  uuid : String
deriving DecidableEq, Repr

/-- A Watcher action belonging to an audit. -/
structure WatcherAction where
  uuid : String
  state : String
deriving DecidableEq, Repr

/-- Exhaustion of a tenacity retry budget. -/
inductive RetryError where
  | retryError
deriving DecidableEq, Repr

/-- One round of a bounded retry: try attempt `i`, then up to `budget`
further attempts. -/
def retry_from (attempt : ℕ → Option α) : ℕ → ℕ → Except RetryError α
  | _, 0 => .error .retryError
  | i, budget + 1 =>
    match attempt i with
    | some a => .ok a
    | none => retry_from attempt (i + 1) budget

/-- Modelled from the spec: the bounded-backoff retry wrapper that
`sunbeam.core.watcher` (not in src/) applies around audit creation.  The
call is attempted up to `budget` times; a retryable error (`none`) moves
to the next attempt and an exhausted budget raises
`tenacity.RetryError`. -/
def retry_call (budget : ℕ) (attempt : ℕ → Option α) : Except RetryError α :=
  retry_from attempt 0 budget

/-- The outcome of `CreateWatcherAuditStepABC.run`: either a COMPLETED
result whose payload carries the audit and its action list, or a FAILED
result with a message. -/
inductive AuditOutcome where
  | completed (audit : Audit) (actions : List WatcherAction)
  | failed (msg : String)
deriving DecidableEq, Repr

/-- Oracle for `CreateWatcherAuditStepABC.run`: the retry budget and
per-attempt outcomes of `_create_audit` (a `none` attempt is a retryable
error absorbed by the wrapper) and the outcome of `_get_actions`, whose
retry exhaustion also surfaces as `tenacity.RetryError`. -/
structure WatcherEnv where
  auditBudget : ℕ
  auditAttempts : ℕ → Option Audit
  actionsResult : Except RetryError (List WatcherAction)

namespace CreateWatcherAuditStepABC

/-- `CreateWatcherAuditStepABC.run` (maintenance.py lines 103-117): the
only declared failure mode of the two calls in the try block is
`tenacity.RetryError`, which is caught and mapped to a FAILED result;
the function is total — nothing escapes the step boundary. -/
def run (env : WatcherEnv) : AuditOutcome :=
  match retry_call env.auditBudget env.auditAttempts with
  | .error _ => .failed "Unable to create Watcher audit"
  | .ok audit =>
    match env.actionsResult with
    | .error _ => .failed "Unable to create Watcher audit"
    | .ok actions => .completed audit actions

end CreateWatcherAuditStepABC

/-! ## Theorems -/

/-- Helper: the fallback loop issues a force-destroy call for every
still-present application, whatever the per-application failure
pattern. -/
theorem mem_force_destroy_loop (fails : String → Bool) (apps : List String)
    (app : String) (h : app ∈ apps) :
    DestroyEvent.forceDestroy app ∈ force_destroy_loop fails apps := by
  induction apps with
  | nil => cases h
  | cons a rest ih =>
    rcases List.mem_cons.mp h with rfl | hmem
    · cases hf : fails app <;>
        simp [force_destroy_loop, app_destroy, hf]
    · cases hf : fails a <;>
        simp [force_destroy_loop, app_destroy, hf] <;>
        exact Or.inr (ih hmem)

/-- C1 counterexample: for the default total timeout T = 600 with the
first wait timing out, `DestroyMachineApplicationStep.run` issues the
force-destroy call and budgets the second wait at 119 seconds — the
binary64 evaluation of `int(600 * (1 - 0.8))` — whereas the claim
demands exactly 0.2 × T = 120 seconds. -/
theorem destroy_run_second_budget_not_exact :
    (DestroyMachineApplicationStep.run 600
        ⟨false, false, "", true, true, ["myapp"], fun _ => false, false⟩).2 =
      [.waitGone 480, .forceDestroy "myapp", .waitGone 119] ∧
    10 * forceful_budget 600 ≠ 2 * 600 := by
  constructor
  · decide
  · decide

/-- C1 (amended): whenever the first wait for application disappearance
times out (and the Terraform phase did not already fail the step, and
the fallback model lookup succeeds), `DestroyMachineApplicationStep.run`
issues a direct force-destroy call for every application still present
in the model and budgets the second wait at `int(T * (1 - 0.8))`
seconds computed in binary64 floating point — 119 seconds for the
default T = 600, one second below 0.2 × T. -/
theorem destroy_run_fallback_behaviour (timeout : ℕ) (env : DestroyRunEnv)
    (htf : (env.hasTfResources && env.tfDestroyFails) = false)
    (hwait : env.firstWaitTimesOut = true)
    (hmodel : env.modelPresent = true) :
    (∀ app ∈ env.presentApps,
      DestroyEvent.forceDestroy app ∈ (DestroyMachineApplicationStep.run timeout env).2) ∧
    DestroyEvent.waitGone (forceful_budget timeout) ∈
      (DestroyMachineApplicationStep.run timeout env).2 ∧
    forceful_budget 600 = 119 ∧ graceful_budget 600 = 480 := by
  simp only [DestroyMachineApplicationStep.run, htf, hwait, hmodel,
    Bool.false_eq_true, if_false, Bool.not_true, Bool.true_eq_false]
  refine ⟨fun app happ => ?_, ?_, by decide, by decide⟩
  · split <;>
      simp [List.mem_append,
        mem_force_destroy_loop env.forceDestroyFails env.presentApps app happ]
  · split <;> simp

/-- Witness for `destroy_run_fallback_behaviour` at a concrete
environment. -/
theorem destroy_run_fallback_behaviour_witness :
    DestroyEvent.forceDestroy "stuck-app" ∈
      (DestroyMachineApplicationStep.run 600
        ⟨true, false, "", true, true, ["stuck-app"], fun _ => true, true⟩).2 ∧
    DestroyEvent.waitGone (forceful_budget 600) ∈
      (DestroyMachineApplicationStep.run 600
        ⟨true, false, "", true, true, ["stuck-app"], fun _ => true, true⟩).2 := by
  have h := destroy_run_fallback_behaviour 600
    ⟨true, false, "", true, true, ["stuck-app"], fun _ => true, true⟩ rfl rfl rfl
  exact ⟨h.1 "stuck-app" (by simp), h.2.1⟩

/-- C7: the force-destroy fallback is per-item isolated — for every
failure pattern of the individual `app.destroy` calls (each failure
being caught and followed by `continue`), a force-destroy call is still
issued for every still-present application. -/
theorem destroy_run_force_destroy_isolated (timeout : ℕ) (env : DestroyRunEnv)
    (app : String)
    (htf : (env.hasTfResources && env.tfDestroyFails) = false)
    (hwait : env.firstWaitTimesOut = true)
    (hmodel : env.modelPresent = true)
    (happ : app ∈ env.presentApps) :
    DestroyEvent.forceDestroy app ∈ (DestroyMachineApplicationStep.run timeout env).2 := by
  simp only [DestroyMachineApplicationStep.run, htf, hwait, hmodel,
    Bool.false_eq_true, if_false, Bool.not_true, Bool.true_eq_false]
  split <;>
    simp [List.mem_append,
      mem_force_destroy_loop env.forceDestroyFails env.presentApps app happ]

/-- Witness for `destroy_run_force_destroy_isolated`: the second
application is still force-destroyed although the call for the first
one raises a `JujuError`. -/
theorem destroy_run_force_destroy_isolated_witness :
    DestroyEvent.forceDestroy "other-app" ∈
      (DestroyMachineApplicationStep.run 600
        ⟨false, false, "", true, true, ["stuck-app", "other-app"],
          fun app => app == "stuck-app", false⟩).2 :=
  destroy_run_force_destroy_isolated 600
    ⟨false, false, "", true, true, ["stuck-app", "other-app"],
      fun app => app == "stuck-app", false⟩
    "other-app" rfl rfl rfl (by simp)

/-- Helper: filtering with a predicate that is false on every element
yields the empty list. -/
theorem filter_eq_nil_of_false {α : Type} (p : α → Bool) :
    ∀ l : List α, (∀ a ∈ l, p a = false) → l.filter p = []
  | [], _ => rfl
  | a :: rest, h => by
    have ha := h a (List.mem_cons_self a rest)
    have hr := filter_eq_nil_of_false p rest
      (fun b hb => h b (List.mem_cons_of_mem a hb))
    simp [List.filter, ha, hr]

/-- C6: when the pulled declarative state has no resources and no
managed application exists in the model (or the model itself is
absent), `DestroyMachineApplicationStep.is_skip` returns SKIPPED, and
under the plan-runner contract the force-destroy path is never
reached — the step execution emits no force-destroy call. -/
theorem destroy_is_skip_nothing_to_destroy (timeout : ℕ)
    (applications : List String)
    (senv : DestroyMachineApplicationStep.DestroySkipEnv) (renv : DestroyRunEnv)
    (htf : senv.tfPullResult = some [])
    (happ : senv.modelPresent = false ∨ ∀ a ∈ applications, senv.appPresent a = false) :
    (DestroyMachineApplicationStep.is_skip applications senv).1 = skippedR ∧
    ∀ app, DestroyEvent.forceDestroy app ∉
      (DestroyMachineApplicationStep.step_exec timeout applications senv renv).2 := by
  have hskip : DestroyMachineApplicationStep.is_skip applications senv =
      (skippedR, false) := by
    rcases happ with hm | hall
    · simp [DestroyMachineApplicationStep.is_skip, htf, hm]
    · simp [DestroyMachineApplicationStep.is_skip, htf,
        filter_eq_nil_of_false senv.appPresent applications hall]
  refine ⟨by rw [hskip], fun app => ?_⟩
  simp [DestroyMachineApplicationStep.step_exec, hskip, skippedR]

/-- Witness for `destroy_is_skip_nothing_to_destroy` at a concrete
environment: empty Terraform state, model present, application absent. -/
theorem destroy_is_skip_nothing_to_destroy_witness :
    (DestroyMachineApplicationStep.is_skip ["myapp"]
      ⟨some [], true, fun _ => false⟩).1 = skippedR ∧
    ∀ app, DestroyEvent.forceDestroy app ∉
      (DestroyMachineApplicationStep.step_exec 600 ["myapp"]
        ⟨some [], true, fun _ => false⟩
        ⟨true, false, "", true, true, ["myapp"], fun _ => false, true⟩).2 :=
  destroy_is_skip_nothing_to_destroy 600 ["myapp"]
    ⟨some [], true, fun _ => false⟩
    ⟨true, false, "", true, true, ["myapp"], fun _ => false, true⟩
    rfl (Or.inr (by simp))

/-- C2 counterexample: a `ModelNotFoundException` raised by the
`get_model` collaborator call inside `run` escapes the step boundary in
both `DeployMachineApplicationStep.run` (the call is outside every try
block) and `AddMachineUnitsStep.run` (the except clause catches only
`ApplicationNotFoundException`), instead of being translated into a
FAILED result. -/
theorem run_lets_model_not_found_escape :
    DeployMachineApplicationStep.run ⟨false, none, none, false⟩ =
      (.error .modelNotFound, []) ∧
    AddMachineUnitsStep.run ⟨false, true, none⟩ = .error .modelNotFound := by
  constructor
  · decide
  · decide

/-- C2 (amended): in `DeployMachineApplicationStep.run` and
`AddMachineUnitsStep.run`, every collaborator error that the method
catches (`ApplicationNotFoundException`, `TerraformException`,
`JujuWaitException`, `TimeoutException`) is translated into a FAILED
result carrying a message, and the methods raise past the step boundary
exactly when `get_model` raises `ModelNotFoundException`. -/
theorem run_translates_caught_collaborator_errors
    (denv : DeployRunEnv) (aenv : AddMachineUnitsStep.RunEnv) :
    ((DeployMachineApplicationStep.run denv).1.isOk = denv.modelPresent) ∧
    ((AddMachineUnitsStep.run aenv).isOk = aenv.modelPresent) ∧
    (denv.modelPresent = true →
      denv.tfApplyError.isSome ∨ denv.waitReadyTimesOut = true →
      ∃ msg, (DeployMachineApplicationStep.run denv).1 = .ok (failedR msg)) ∧
    (aenv.modelPresent = true →
      aenv.appFound = false ∨ aenv.waitError.isSome →
      ∃ msg, AddMachineUnitsStep.run aenv = .ok (failedR msg)) := by
  obtain ⟨dm, dids, dtf, dwait⟩ := denv
  obtain ⟨am, aapp, await⟩ := aenv
  cases dm <;> cases am <;> cases aapp <;> cases dwait <;>
    rcases dtf with _ | dmsg <;> rcases await with _ | amsg <;>
    simp [DeployMachineApplicationStep.run, AddMachineUnitsStep.run,
      Except.isOk, Except.toBool]

/-- Witness for `run_translates_caught_collaborator_errors`: a
Terraform failure in the deploy step and a missing application in the
add-units step both come back as FAILED results. -/
theorem run_translates_caught_collaborator_errors_witness :
    (∃ msg, (DeployMachineApplicationStep.run
      ⟨true, none, some "terraform apply failed", false⟩).1 = .ok (failedR msg)) ∧
    (∃ msg, AddMachineUnitsStep.run ⟨true, false, none⟩ = .ok (failedR msg)) :=
  ⟨(run_translates_caught_collaborator_errors
      ⟨true, none, some "terraform apply failed", false⟩ ⟨true, false, none⟩).2.2.1
      rfl (Or.inl rfl),
    (run_translates_caught_collaborator_errors
      ⟨true, none, some "terraform apply failed", false⟩ ⟨true, false, none⟩).2.2.2
      rfl (Or.inl rfl)⟩

/-- C3 counterexample: pod eviction and PVC deletion are not per-item
isolated — when the client call for the first pod (respectively first
PVC) raises, the second pod is not evicted and the second PVC is not
deleted: the loops have no per-item exception handling, so the error
aborts the remaining items. -/
theorem evict_delete_not_per_item_isolated :
    ("pod2" ∉ (evict_pods (fun name => name == "pod1")
      [⟨some ⟨"pod1", "ns", none⟩, none⟩, ⟨some ⟨"pod2", "ns", none⟩, none⟩]).1) ∧
    (evict_pods (fun name => name == "pod1")
      [⟨some ⟨"pod1", "ns", none⟩, none⟩, ⟨some ⟨"pod2", "ns", none⟩, none⟩]).2 =
      some (.apiError "pod1") ∧
    ("pvc2" ∉ (delete_pvc (fun name => name == "pvc1")
      [⟨some ⟨"pvc1", "ns"⟩⟩, ⟨some ⟨"pvc2", "ns"⟩⟩]).1) ∧
    (delete_pvc (fun name => name == "pvc1")
      [⟨some ⟨"pvc1", "ns"⟩⟩, ⟨some ⟨"pvc2", "ns"⟩⟩]).2 =
      some (.apiError "pvc1") := by
  refine ⟨by decide, by decide, by decide, by decide⟩

/-- C3 (amended): `evict_pods` and `delete_pvc` skip items whose
metadata is `None` without aborting, and when no client call fails they
process every item; but a failing client call for one item aborts the
loop — the error propagates and the remaining items are not
processed. -/
theorem evict_delete_abort_on_first_client_failure
    (evictionFails deleteFails : String → Bool)
    (pods : List Pod) (pvcs : List Pvc) :
    ((∀ pod ∈ pods, ∀ meta, pod.metadata = some meta → evictionFails meta.name = false) →
      evict_pods evictionFails pods =
        (pods.filterMap (fun pod => pod.metadata.map PodMeta.name), none)) ∧
    ((∀ pvc ∈ pvcs, ∀ meta, pvc.metadata = some meta → deleteFails meta.name = false) →
      delete_pvc deleteFails pvcs =
        (pvcs.filterMap (fun pvc => pvc.metadata.map PvcMeta.name), none)) ∧
    (∀ pod rest meta, pod.metadata = some meta → evictionFails meta.name = true →
      evict_pods evictionFails (pod :: rest) = ([], some (.apiError meta.name))) ∧
    (∀ pvc rest meta, pvc.metadata = some meta → deleteFails meta.name = true →
      delete_pvc deleteFails (pvc :: rest) = ([], some (.apiError meta.name))) := by
  refine ⟨?_, ?_, ?_, ?_⟩
  · intro h
    induction pods with
    | nil => rfl
    | cons pod rest ih =>
      have hr := ih (fun q hq => h q (List.mem_cons_of_mem pod hq))
      match hm : pod.metadata with
      | none => simp [evict_pods, hm, hr, List.filterMap_cons]
      | some meta =>
        have hf := h pod (List.mem_cons_self pod rest) meta hm
        simp [evict_pods, hm, hf, hr, List.filterMap_cons]
  · intro h
    induction pvcs with
    | nil => rfl
    | cons pvc rest ih =>
      have hr := ih (fun q hq => h q (List.mem_cons_of_mem pvc hq))
      match hm : pvc.metadata with
      | none => simp [delete_pvc, hm, hr, List.filterMap_cons]
      | some meta =>
        have hf := h pvc (List.mem_cons_self pvc rest) meta hm
        simp [delete_pvc, hm, hf, hr, List.filterMap_cons]
  · intro pod rest meta hm hf
    simp [evict_pods, hm, hf]
  · intro pvc rest meta hm hf
    simp [delete_pvc, hm, hf]

/-- Witness for `evict_delete_abort_on_first_client_failure`: a
two-pod, two-PVC drain with no client failures evicts and deletes
everything; a failing first item aborts with its error. -/
theorem evict_delete_abort_on_first_client_failure_witness :
    (evict_pods (fun _ => false)
      [⟨some ⟨"pod1", "ns", none⟩, none⟩, ⟨some ⟨"pod2", "ns", none⟩, none⟩] =
      (["pod1", "pod2"], none)) ∧
    (delete_pvc (fun _ => false) [⟨some ⟨"pvc1", "ns"⟩⟩, ⟨some ⟨"pvc2", "ns"⟩⟩] =
      (["pvc1", "pvc2"], none)) ∧
    (evict_pods (fun _ => true)
      (⟨some ⟨"pod1", "ns", none⟩, none⟩ :: [⟨some ⟨"pod2", "ns", none⟩, none⟩]) =
      ([], some (.apiError "pod1"))) ∧
    (delete_pvc (fun _ => true) (⟨some ⟨"pvc1", "ns"⟩⟩ :: [⟨some ⟨"pvc2", "ns"⟩⟩]) =
      ([], some (.apiError "pvc1"))) := by
  have h := evict_delete_abort_on_first_client_failure
    (fun _ => false) (fun _ => false)
    [⟨some ⟨"pod1", "ns", none⟩, none⟩, ⟨some ⟨"pod2", "ns", none⟩, none⟩]
    [⟨some ⟨"pvc1", "ns"⟩⟩, ⟨some ⟨"pvc2", "ns"⟩⟩]
  have h2 := evict_delete_abort_on_first_client_failure
    (fun _ => true) (fun _ => true)
    ([] : List Pod) ([] : List Pvc)
  refine ⟨?_, ?_, ?_, ?_⟩
  · have := h.1 (by intro p hp m hm; rfl)
    simpa using this
  · have := h.2.1 (by intro p hp m hm; rfl)
    simpa using this
  · exact h2.2.2.1 ⟨some ⟨"pod1", "ns", none⟩, none⟩
      [⟨some ⟨"pod2", "ns", none⟩, none⟩] ⟨"pod1", "ns", none⟩ rfl rfl
  · exact h2.2.2.2 ⟨some ⟨"pvc1", "ns"⟩⟩ [⟨some ⟨"pvc2", "ns"⟩⟩] ⟨"pvc1", "ns"⟩ rfl rfl

/-- A pod whose DaemonSet owner reference is not the first entry of the
ownerReferences list (such pods arise for any input pod list, which is
what the claim quantifies over). -/
def podLateDaemonSet : Pod :=
  ⟨some ⟨"late-ds-pod", "kube-system", some [⟨"ReplicaSet"⟩, ⟨"DaemonSet"⟩]⟩, none⟩

/-- C4 counterexample: the eviction set computed by
`fetch_pods_for_eviction` contains a pod owned by a DaemonSet — the
classifier inspects only the first owner reference, so a pod whose
DaemonSet owner reference is not first is included. -/
theorem fetch_pods_for_eviction_keeps_daemonset_pod :
    fetch_pods_for_eviction [podLateDaemonSet] = .ok [podLateDaemonSet] ∧
    spec_owned_by_daemonset podLateDaemonSet = true := by
  refine ⟨by decide, by decide⟩

/-- Helper: every pod in a successful eviction-set computation was
classified evictable by the DaemonSet classifier. -/
theorem mem_fetch_pods_for_eviction_ok (pods result : List Pod)
    (h : fetch_pods_for_eviction pods = .ok result) :
    ∀ pod ∈ result, is_not_daemonset pod = .ok true := by
  induction pods generalizing result with
  | nil =>
    simp only [fetch_pods_for_eviction] at h
    cases h
    intro pod hpod
    cases hpod
  | cons p rest ih =>
    match hc : is_not_daemonset p with
    | .error e => simp [fetch_pods_for_eviction, hc] at h
    | .ok keep =>
      match hr : fetch_pods_for_eviction rest with
      | .error e => simp [fetch_pods_for_eviction, hc, hr] at h
      | .ok tail =>
        simp only [fetch_pods_for_eviction, hc, hr] at h
        cases h
        intro pod hpod
        cases keep with
        | true =>
          simp only [if_true] at hpod
          rcases List.mem_cons.mp hpod with rfl | hmem
          · exact hc
          · exact ih tail hr pod hmem
        | false =>
          simp only [Bool.false_eq_true, if_false] at hpod
          exact ih tail hr pod hpod

/-- Helper: a pod the classifier marks evictable has a nonempty
owner-reference list whose head is not a DaemonSet. -/
theorem is_not_daemonset_ok_true_elim (pod : Pod)
    (h : is_not_daemonset pod = .ok true) :
    ∃ meta ref refs, pod.metadata = some meta ∧
      meta.ownerReferences = some (ref :: refs) ∧ ref.kind ≠ "DaemonSet" := by
  match hm : pod.metadata with
  | none => simp [is_not_daemonset, hm] at h
  | some meta =>
    match ho : meta.ownerReferences with
    | none => simp [is_not_daemonset, hm, ho] at h
    | some [] => simp [is_not_daemonset, hm, ho] at h
    | some (ref :: refs) =>
      simp only [is_not_daemonset, hm, ho, Except.ok.injEq] at h
      exact ⟨meta, ref, refs, rfl, ho, by simpa using h⟩

/-- C4 (amended): for every input pod list on which
`fetch_pods_for_eviction` returns (rather than raises), the eviction
set never contains a pod whose FIRST owner reference is of kind
DaemonSet — every returned pod has a nonempty owner-reference list
headed by a non-DaemonSet reference. -/
theorem fetch_pods_for_eviction_first_owner_not_daemonset
    (pods result : List Pod) (h : fetch_pods_for_eviction pods = .ok result) :
    ∀ pod ∈ result, ∃ meta ref refs, pod.metadata = some meta ∧
      meta.ownerReferences = some (ref :: refs) ∧ ref.kind ≠ "DaemonSet" :=
  fun pod hpod =>
    is_not_daemonset_ok_true_elim pod
      (mem_fetch_pods_for_eviction_ok pods result h pod hpod)

/-- Witness for `fetch_pods_for_eviction_first_owner_not_daemonset` at
the concrete singleton list. -/
theorem fetch_pods_for_eviction_first_owner_not_daemonset_witness :
    ∃ meta ref refs, podLateDaemonSet.metadata = some meta ∧
      meta.ownerReferences = some (ref :: refs) ∧ ref.kind ≠ "DaemonSet" :=
  fetch_pods_for_eviction_first_owner_not_daemonset
    [podLateDaemonSet] [podLateDaemonSet] (by decide)
    podLateDaemonSet (by simp)

/-- C10: the DaemonSet classifier inspects only the first entry of the
ownerReferences list: it yields no boolean (raises) for any pod with
metadata but a missing or empty owner-reference list, `drain` on a node
whose pod has no ownerReferences raises rather than returning, and a
pod whose DaemonSet owner is not the first owner reference is
classified as evictable and hence included in the eviction set. -/
theorem is_not_daemonset_first_owner_only :
    (∀ (pod : Pod) (meta : PodMeta), pod.metadata = some meta →
      meta.ownerReferences = none ∨ meta.ownerReferences = some [] →
      (is_not_daemonset pod).isOk = false) ∧
    drain ⟨[⟨some ⟨"bare-pod", "default", none⟩, none⟩],
      fun _ _ => ⟨none⟩, fun _ => false, fun _ => false⟩ = .error .typeError ∧
    is_not_daemonset podLateDaemonSet = .ok true ∧
    spec_owned_by_daemonset podLateDaemonSet = true ∧
    fetch_pods_for_eviction [podLateDaemonSet] = .ok [podLateDaemonSet] := by
  refine ⟨?_, by decide, by decide, by decide, by decide⟩
  intro pod meta hm ho
  rcases ho with ho | ho <;> simp [is_not_daemonset, hm, ho, Except.isOk, Except.toBool]

/-- Witness for `is_not_daemonset_first_owner_only` at a concrete pod
with an empty owner-reference list. -/
theorem is_not_daemonset_first_owner_only_witness :
    (is_not_daemonset ⟨some ⟨"orphan-pod", "default", some []⟩, none⟩).isOk = false :=
  is_not_daemonset_first_owner_only.1
    ⟨some ⟨"orphan-pod", "default", some []⟩, none⟩
    ⟨"orphan-pod", "default", some []⟩ rfl (Or.inr rfl)

/-- C5: requesting units on machines 3 and 7 when a unit already sits
on machine 3 leaves `to_deploy = {"7"}` after `is_skip` (with a
COMPLETED outcome), and `add_machine_id_to_tfvar` then persists the
sorted union of the previously stored machine ids `["3"]` with the
deploy-set, i.e. `["3", "7"]`. -/
theorem add_units_deploy_set_scenario :
    AddMachineUnitsStep.is_skip ["node3", "node7"]
        ⟨[⟨"node3", some 3⟩, ⟨"node7", some 7⟩], true, some ["3"]⟩ ∅ =
      (.ok completedR, {"7"}) ∧
    AddMachineUnitsStep.add_machine_id_to_tfvar {"7"} (some ["3"]) = ["3", "7"] := by
  constructor
  · decide
  · simp only [AddMachineUnitsStep.add_machine_id_to_tfvar]
    rw [if_neg (by decide)]
    have hu : ((((some ["3"]).getD []).toFinset : Finset String) ∪ {"7"}) = insert "3" {"7"} := by decide
    rw [hu, Finset.sort_insert, Finset.sort_singleton]
    · intro b hb
      rw [Finset.mem_singleton] at hb
      subst hb
      rw [String.le_iff_toList_le]
      decide
    · decide

/-- Helper: a bounded retry whose first success is attempt `i + k` with
`k` inside the remaining budget returns that success. -/
theorem retry_from_ok {α : Type} (attempt : ℕ → Option α) (a : α) :
    ∀ (k i budget : ℕ), k < budget → attempt (i + k) = some a →
      (∀ j, j < k → attempt (i + j) = none) →
      retry_from attempt i budget = .ok a
  | 0, i, budget + 1, _, hk, _ => by
    simp only [retry_from]
    rw [show i + 0 = i from rfl] at hk
    rw [hk]
  | k + 1, i, budget + 1, hb, hk, hbefore => by
    simp only [retry_from]
    have h0 : attempt i = none := by
      have := hbefore 0 (Nat.succ_pos k)
      simpa using this
    rw [h0]
    exact retry_from_ok attempt a k (i + 1) budget
      (Nat.lt_of_succ_lt_succ hb)
      (by rw [show i + 1 + k = i + (k + 1) from by omega]; exact hk)
      (fun j hj => by
        rw [show i + 1 + j = i + (j + 1) from by omega]
        exact hbefore (j + 1) (Nat.succ_lt_succ hj))

/-- Helper: a bounded retry all of whose attempts are retryable errors
exhausts its budget. -/
theorem retry_from_exhausts {α : Type} (attempt : ℕ → Option α) :
    ∀ (budget i : ℕ), (∀ j, j < budget → attempt (i + j) = none) →
      retry_from attempt i budget = .error .retryError
  | 0, _, _ => rfl
  | budget + 1, i, h => by
    simp only [retry_from]
    have h0 : attempt i = none := by simpa using h 0 (Nat.succ_pos budget)
    rw [h0]
    exact retry_from_exhausts attempt budget (i + 1)
      (fun j hj => by
        rw [show i + 1 + j = i + (j + 1) from by omega]
        exact h (j + 1) (Nat.succ_lt_succ hj))

/-- C8: `CreateWatcherAuditStepABC.run` returns a COMPLETED outcome
carrying the audit and the action list whenever audit creation succeeds
at some attempt within the retry budget (any earlier attempts being
retryable errors absorbed by the wrapper) and action retrieval
succeeds; and it returns the FAILED outcome (without raising — the
embedding is a total function into outcomes) when every attempt within
the budget fails, i.e. when the retry budget is exhausted. -/
theorem create_watcher_audit_run_outcomes (env : WatcherEnv) (k : ℕ)
    (audit : Audit) (actions : List WatcherAction) :
    (k < env.auditBudget → env.auditAttempts k = some audit →
      (∀ j, j < k → env.auditAttempts j = none) →
      env.actionsResult = .ok actions →
      CreateWatcherAuditStepABC.run env = .completed audit actions) ∧
    ((∀ j, j < env.auditBudget → env.auditAttempts j = none) →
      CreateWatcherAuditStepABC.run env = .failed "Unable to create Watcher audit") := by
  constructor
  · intro hk hsucc hbefore hacts
    have hretry : retry_call env.auditBudget env.auditAttempts = .ok audit :=
      retry_from_ok env.auditAttempts audit k 0 env.auditBudget hk
        (by simpa using hsucc) (fun j hj => by simpa using hbefore j hj)
    simp [CreateWatcherAuditStepABC.run, hretry, hacts]
  · intro hall
    have hretry : retry_call env.auditBudget env.auditAttempts = .error .retryError :=
      retry_from_exhausts env.auditAttempts env.auditBudget 0
        (fun j hj => by simpa using hall j hj)
    simp [CreateWatcherAuditStepABC.run, hretry]

/-- Witness for `create_watcher_audit_run_outcomes`: three consecutive
retryable errors followed by a success within a budget of four attempts
still completes with the action list, and a permanently failing
creation exhausts the budget into the FAILED outcome. -/
theorem create_watcher_audit_run_outcomes_witness :
    CreateWatcherAuditStepABC.run
      ⟨4, fun i => if i = 3 then some ⟨"audit-1"⟩ else none,
        .ok [⟨"action-1", "PENDING"⟩]⟩ =
      .completed ⟨"audit-1"⟩ [⟨"action-1", "PENDING"⟩] ∧
    CreateWatcherAuditStepABC.run ⟨4, fun _ => none, .ok []⟩ =
      .failed "Unable to create Watcher audit" :=
  ⟨(create_watcher_audit_run_outcomes
      ⟨4, fun i => if i = 3 then some ⟨"audit-1"⟩ else none,
        .ok [⟨"action-1", "PENDING"⟩]⟩ 3 ⟨"audit-1"⟩ [⟨"action-1", "PENDING"⟩]).1
      (by decide) rfl (by decide) rfl,
    (create_watcher_audit_run_outcomes
      ⟨4, fun _ => none, .ok []⟩ 0 ⟨"unused"⟩ []).2
      (fun j hj => rfl)⟩

/-- Helper: `AddMachineUnitsStep.is_skip` is idempotent from any prior
resolved-target state. -/
theorem add_is_skip_idem (names : List String) (env : AddSkipEnv) (s : Finset String) :
    AddMachineUnitsStep.is_skip names env (AddMachineUnitsStep.is_skip names env s).2 =
      AddMachineUnitsStep.is_skip names env s := by
  simp only [AddMachineUnitsStep.is_skip]
  cases h1 : names.isEmpty
  · simp only [Bool.false_eq_true, if_false]
    by_cases h2 : (AddMachineUnitsStep.filtered_nodes names env.nodes).length = names.length
    · simp only [h2, ne_eq, not_true_eq_false, if_false]
      generalize (AddMachineUnitsStep.resolved_machine_ids names env.nodes).toFinset = A
      cases h3 : (AddMachineUnitsStep.nodes_without_machine_id names env.nodes).isEmpty
      · simp [Finset.union_assoc]
      · simp only [Bool.not_true, Bool.false_eq_true, if_false]
        cases h4 : env.modelPresent
        · simp [Finset.union_assoc]
        · simp only [Bool.not_true, Bool.false_eq_true, if_false]
          cases h5 : env.deployedMachineIds
          · simp [Finset.union_assoc]
          · rename_i deployed
            dsimp only
            have key : ((s ∪ A) \ deployed.toFinset ∪ A) \ deployed.toFinset =
                (s ∪ A) \ deployed.toFinset := by
              ext x
              simp only [Finset.mem_sdiff, Finset.mem_union]
              tauto
            by_cases h6 : (s ∪ A) \ deployed.toFinset = ∅
            · rw [if_pos h6]
              dsimp only
              rw [key, if_pos h6]
            · rw [if_neg h6]
              dsimp only
              rw [key, if_neg h6]
    · simp [h2]
  · simp

/-- Helper: `RemoveMachineUnitsStep.is_skip` is idempotent from any
prior resolved-target state. -/
theorem remove_is_skip_idem (names : List String) (env : RemoveSkipEnv) (s : Finset String) :
    RemoveMachineUnitsStep.is_skip names env (RemoveMachineUnitsStep.is_skip names env s).2 =
      RemoveMachineUnitsStep.is_skip names env s := by
  simp only [RemoveMachineUnitsStep.is_skip]
  cases h1 : names.isEmpty
  · simp only [Bool.false_eq_true, if_false]
    cases h2 : env.modelPresent
    · simp
    · simp only [Bool.not_true, Bool.false_eq_true, if_false]
      cases h3 : env.appUnits
      · simp
      · rename_i appUnits
        dsimp only
        cases h4 : (RemoveMachineUnitsStep.filtered_nodes names env.nodes).any
            (fun node => node.machineid.isNone)
        · simp only [Bool.false_eq_true, if_false]
          generalize (RemoveMachineUnitsStep.units_to_remove_names
            names env.nodes appUnits).toFinset = M
          have key : (s ∪ M) ∪ M = s ∪ M := by
            rw [Finset.union_assoc, Finset.union_self]
          by_cases h5 : s ∪ M = ∅
          · rw [if_pos h5]
            dsimp only
            rw [key, if_pos h5]
          · rw [if_neg h5]
            dsimp only
            rw [key, if_neg h5]
        · simp
  · simp

/-- C9: calling `is_skip` twice in succession against the same
immutable external state, with no `run` in between, returns the same
outcome both times and leaves the resolved-target state
(`to_deploy` / `units_to_remove`) identical — for `AddMachineUnitsStep`
and `RemoveMachineUnitsStep`, from any prior resolved-target state
(in particular the empty one a freshly constructed step has). -/
theorem is_skip_twice_idempotent :
    (∀ (names : List String) (env : AddSkipEnv) (s : Finset String),
      AddMachineUnitsStep.is_skip names env (AddMachineUnitsStep.is_skip names env s).2 =
        AddMachineUnitsStep.is_skip names env s) ∧
    (∀ (names : List String) (env : RemoveSkipEnv) (s : Finset String),
      RemoveMachineUnitsStep.is_skip names env
          (RemoveMachineUnitsStep.is_skip names env s).2 =
        RemoveMachineUnitsStep.is_skip names env s) :=
  ⟨add_is_skip_idem, remove_is_skip_idem⟩
